import Mathlib

/-!
Shallow embedding of the provider/model settings registry of
obsidian-yt-video-summarizer (src/services/settingsManager.ts,
src/services/providers/providersFactory.ts, src/defaults.ts).

Conventions of the embedding:
* TypeScript methods mutating `this.settings` become pure functions
  `StoredSettings → ... → Except Err StoredSettings`; every `throw` in the
  source happens before any mutation, so an `Except.error` result faithfully
  models "state unchanged".
* JavaScript strings are `String`; `===` on strings is `==`; a truthiness
  test `!s` on a string is `s == ""` (the only falsy string).
* `number` is `ℚ` (the code stores and compares plain numbers).
* Optional / nullable fields are `Option`.
* Reference identity (`!==`) of a freshly allocated object against any object
  already stored in the settings is always `false`; the validators are
  embedded with that fact resolved at their (only) call sites, which all pass
  freshly constructed records.
* The numeric generation parameters and prompt are carried verbatim.
-/

/-- Error taxonomy of the spec; the source throws `Error` with fixed
message strings, mapped here one-to-one:
"Invalid provider configuration"/"Invalid model configuration" → `validation`,
"Provider not found"/"Model not found" → `notFound`,
"Cannot delete provider with associated models" → `conflict`,
"Unsupported provider type" → `unsupportedProvider`. -/
inductive Err where
  | validation
  | notFound
  | conflict
  | unsupportedProvider
deriving DecidableEq, Repr

/-- Stored model entry, as actually used by settingsManager.ts and
defaults.ts: field `id` is the durable model identifier and `name` the
display label (types.ts's `StoredModel` declaration names them differently,
but every access in the code uses `id`/`name`). -/
structure StoredModel where
  id : String
  name : String
deriving DecidableEq, Repr

/-- Stored provider record (`StoredProvider` in types.ts). -/
structure StoredProvider where
  name : String
  type : String
  apiKey : String
  url : Option String
  verified : Bool
  models : List StoredModel
deriving DecidableEq, Repr

/-- The persisted settings object (`StoredSettings` in types.ts). -/
structure StoredSettings where
  providers : List StoredProvider
  selectedModelId : Option String
  customPrompt : String
  maxTokens : ℚ
  temperature : ℚ
deriving DecidableEq, Repr

/-- Provider snapshot embedded in a denormalized `ModelConfig` by
`convertToModelConfig` (it copies name/type/apiKey/url/verified and omits
the model list). -/
structure ProviderSnapshot where
  name : String
  type : String
  apiKey : String
  url : Option String
  verified : Bool
deriving DecidableEq, Repr

/-- Denormalized model view (`ModelConfig` in types.ts as produced by
`convertToModelConfig`). -/
structure ModelConfig where
  name : String
  displayName : String
  provider : ProviderSnapshot
deriving DecidableEq, Repr

/-- Caller-side provider configuration (`ProviderConfig` in types.ts):
what `addProvider`/`updateProvider` receive. `models` is the optional
caller-supplied model list ([] when absent) which `addProvider` discards. -/
structure ProviderConfig where
  name : String
  type : String
  apiKey : String
  url : Option String
  verified : Bool
  models : List ModelConfig
deriving DecidableEq, Repr

/-- Denormalized provider view returned by `getProviders`. -/
structure ProviderView where
  name : String
  type : String
  apiKey : String
  url : Option String
  verified : Bool
  models : List ModelConfig
deriving DecidableEq, Repr

/-- Modelled from the spec: `GEMINI_MODELS` lives in src/constants.ts which
is not part of the provided sources. The spec fixes only that the default
Gemini provider owns a list of models named after their ids; the registry
default selection in settingsManager.ts is "gemini-1.5-pro", so that id is
included. No claim depends on the exact list. -/
def GEMINI_MODELS : List String :=
  ["gemini-1.5-pro", "gemini-1.5-flash"]

/-- Modelled from the spec: `DEFAULT_PROMPT` lives in src/constants.ts which
is not part of the provided sources; it is a prompt template string whose
content no claim depends on. -/
def DEFAULT_PROMPT : String :=
  "Summarize the following video transcript"

/-- `DEFAULT_PROVIDERS` from src/defaults.ts. -/
def DEFAULT_PROVIDERS : List StoredProvider :=
  [ { name := "Gemini", type := "gemini", apiKey := "", url := none,
      verified := false,
      models := GEMINI_MODELS.map (fun id => { id := id, name := id }) },
    { name := "OpenAI", type := "openai", apiKey := "", url := none,
      verified := false,
      models := [ { id := "gpt-3.5-turbo", name := "GPT-3.5 Turbo" },
                  { id := "gpt-4", name := "GPT-4" },
                  { id := "gpt-4-turbo", name := "GPT-4 Turbo" } ] },
    { name := "Anthropic", type := "anthropic", apiKey := "", url := none,
      verified := false,
      models := [ { id := "claude-3-opus", name := "Claude 3 Opus" },
                  { id := "claude-3-sonnet", name := "Claude 3 Sonnet" },
                  { id := "claude-3-haiku", name := "Claude 3 Haiku" } ] } ]

/-- The in-memory settings installed by the `SettingsManager` constructor
before `loadSettings` runs (settingsManager.ts lines 15-21). -/
def defaultSettings : StoredSettings :=
  { providers := DEFAULT_PROVIDERS,
    selectedModelId := some "gemini-1.5-pro",
    customPrompt := DEFAULT_PROMPT,
    maxTokens := 3000,
    temperature := 1 }

/-- Applies `f` to the first list element satisfying `p`, leaving the rest
unchanged. This models the source pattern of `find`-ing an element and
mutating it in place (or `indexOf` + assignment at that index). -/
def updateFirst (p : α → Bool) (f : α → α) : List α → List α
  | [] => []
  | x :: xs => if p x then f x :: xs else x :: updateFirst p f xs

/-- `validateProvider` (settingsManager.ts lines 304-316) as invoked on a
freshly constructed record: `!provider.name || !provider.type` rejects empty
identity fields, and the duplicate check
`existingProvider && existingProvider !== provider` rejects whenever any
stored provider carries the same name, because a fresh record is never
reference-identical to a stored one. Both call sites (`addProvider`,
`updateProvider`) pass a freshly constructed record. -/
def validateFreshProvider (providers : List StoredProvider)
    (p : StoredProvider) : Bool :=
  if p.name == "" || p.type == "" then false
  else
    match providers.find? (fun q => q.name == p.name) with
    | some _ => false
    | none => true

/-- `validateModel` (settingsManager.ts lines 318-333) as invoked on a
freshly constructed record, analogously to `validateFreshProvider`. -/
def validateFreshModel (provider : StoredProvider) (m : StoredModel) : Bool :=
  if m.id == "" || m.name == "" then false
  else
    match provider.models.find? (fun q => q.id == m.id) with
    | some _ => false
    | none => true

/-- `addProvider` (settingsManager.ts lines 70-82): builds a stored record
from the input with an empty model list, validates, then appends. -/
def addProvider (s : StoredSettings) (provider : ProviderConfig) :
    Except Err StoredSettings :=
  let storedProvider : StoredProvider :=
    { name := provider.name, type := provider.type,
      apiKey := provider.apiKey, url := provider.url,
      verified := provider.verified, models := [] }
  if validateFreshProvider s.providers storedProvider then
    Except.ok { s with providers := s.providers ++ [storedProvider] }
  else
    Except.error Err.validation

/-- `updateProvider` (settingsManager.ts lines 105-123): looks the provider
up by name, rebuilds it from the input keeping the stored model list,
validates the fresh record, and replaces the stored entry in place. -/
def updateProvider (s : StoredSettings) (provider : ProviderConfig) :
    Except Err StoredSettings :=
  match s.providers.find? (fun p => p.name == provider.name) with
  | none => Except.error Err.notFound
  | some storedProvider =>
    let updatedProvider : StoredProvider :=
      { name := provider.name, type := provider.type,
        apiKey := provider.apiKey, url := provider.url,
        verified := provider.verified, models := storedProvider.models }
    if validateFreshProvider s.providers updatedProvider then
      let providers2 :=
        updateFirst (fun p => p.name == provider.name)
          (fun _ => updatedProvider) s.providers
      Except.ok { s with providers := providers2 }
    else
      Except.error Err.validation

/-- `updateModel` (settingsManager.ts lines 126-154), with the argument
shape of the `PluginSettings` interface (`name`, `displayName`,
`providerName`; the implementation takes a `ModelConfig` and reads exactly
these three fields). When the model id is absent under the provider the
call just records the selection; otherwise it rebuilds the stored model
(display name falling back to the id when empty, mirroring
`model.displayName || model.name`), validates, and overwrites the slot. -/
def updateModel (s : StoredSettings) (name displayName providerName : String) :
    Except Err StoredSettings :=
  match s.providers.find? (fun p => p.name == providerName) with
  | none => Except.error Err.notFound
  | some provider =>
    match provider.models.findIdx? (fun m => m.id == name) with
    | none => Except.ok { s with selectedModelId := some name }
    | some index =>
      let storedModel : StoredModel :=
        { id := name, name := if displayName == "" then name else displayName }
      if validateFreshModel provider storedModel then
        let providers2 :=
          updateFirst (fun p => p.name == providerName)
            (fun p => { p with models := p.models.set index storedModel })
            s.providers
        Except.ok { s with providers := providers2 }
      else
        Except.error Err.validation

/-- `deleteProvider` (settingsManager.ts lines 157-170): only the provider
name is consulted; deletion is refused while the model list is non-empty. -/
def deleteProvider (s : StoredSettings) (providerName : String) :
    Except Err StoredSettings :=
  match s.providers.find? (fun p => p.name == providerName) with
  | none => Except.error Err.notFound
  | some storedProvider =>
    if storedProvider.models.length > 0 then
      Except.error Err.conflict
    else
      let providers2 := s.providers.eraseP (fun p => p.name == providerName)
      Except.ok { s with providers := providers2 }

/-- `deleteModel` (settingsManager.ts lines 173-208), with the argument
shape of the `PluginSettings` interface (`providerName`, `modelName`): finds
the provider, then the model index by id; clears the selection when it
names the deleted model; splices out exactly that index. -/
def deleteModel (s : StoredSettings) (providerName modelName : String) :
    Except Err StoredSettings :=
  match s.providers.find? (fun p => p.name == providerName) with
  | none => Except.error Err.notFound
  | some provider =>
    match provider.models.findIdx? (fun m => m.id == modelName) with
    | none => Except.error Err.notFound
    | some index =>
      let sel := if s.selectedModelId == some modelName then none
                 else s.selectedModelId
      let providers2 :=
        updateFirst (fun p => p.name == providerName)
          (fun p => { p with models := p.models.eraseIdx index })
          s.providers
      Except.ok { s with selectedModelId := sel, providers := providers2 }

/-- `saveProviderKey` (settingsManager.ts lines 229-238): overwrites the
key of the first provider with the given name and forces `verified` off. -/
def saveProviderKey (s : StoredSettings) (providerName key : String) :
    Except Err StoredSettings :=
  match s.providers.find? (fun p => p.name == providerName) with
  | none => Except.error Err.notFound
  | some _ =>
    let providers2 :=
      updateFirst (fun p => p.name == providerName)
        (fun p => { p with apiKey := key, verified := false }) s.providers
    Except.ok { s with providers := providers2 }

/-- `setSelectedModel` (settingsManager.ts lines 241-244). -/
def setSelectedModel (s : StoredSettings) (modelName : String) :
    StoredSettings :=
  { s with selectedModelId := some modelName }

/-- `convertToModelConfig` (settingsManager.ts lines 349-361): builds a
fresh denormalized view; the embedded provider snapshot omits the model
list. -/
def convertToModelConfig (model : StoredModel) (provider : StoredProvider) :
    ModelConfig :=
  { name := model.id,
    displayName := model.name,
    provider := { name := provider.name, type := provider.type,
                  apiKey := provider.apiKey, url := provider.url,
                  verified := provider.verified } }

/-- `findModelAndProvider` (settingsManager.ts lines 335-347): first
provider owning a model with the given id, scanning providers in order. -/
def findModelAndProvider (s : StoredSettings) (modelId : String) :
    Option (StoredModel × StoredProvider) :=
  if modelId == "" then none
  else
    s.providers.findSome? (fun provider =>
      (provider.models.find? (fun m => m.id == modelId)).map
        (fun m => (m, provider)))

/-- `getSelectedModel` (settingsManager.ts lines 26-33). Reads are embedded
as state transformers returning the (untouched) state with the value, so
that the frame property is a statement, not a convention. -/
def getSelectedModel (s : StoredSettings) :
    StoredSettings × Option ModelConfig :=
  (s,
   match s.selectedModelId with
   | none => none
   | some id =>
     if id == "" then none
     else (findModelAndProvider s id).map
       (fun mp => convertToModelConfig mp.1 mp.2))

/-- The per-provider denormalized view built inline by `getProviders`
(settingsManager.ts lines 37-44). -/
def providerView (provider : StoredProvider) : ProviderView :=
  { name := provider.name, type := provider.type, apiKey := provider.apiKey,
    url := provider.url, verified := provider.verified,
    models := provider.models.map (fun m => convertToModelConfig m provider) }

/-- `getProviders` (settingsManager.ts lines 36-45). -/
def getProviders (s : StoredSettings) : StoredSettings × List ProviderView :=
  (s, s.providers.map providerView)

/-- `getModels` (settingsManager.ts lines 48-52). -/
def getModels (s : StoredSettings) : StoredSettings × List ModelConfig :=
  (s, s.providers.flatMap (fun provider =>
        provider.models.map (fun m => convertToModelConfig m provider)))

/-- Shape of the durable blob handed to `loadSettings`: absent, legacy
(flat `geminiApiKey` next to the scalar fields), or current format. In the
current format each field is independently nullish-able (`??` merge);
`none` stands for null-or-absent. -/
structure CurrentBlob where
  providers : Option (List StoredProvider)
  selectedModelId : Option String
  customPrompt : Option String
  maxTokens : Option ℚ
  temperature : Option ℚ
deriving DecidableEq, Repr

/-- Loaded durable data (`plugin.loadData()?.settings`). -/
inductive LoadedData where
  | noData
  | legacy (geminiApiKey selectedModel customPrompt : String)
           (maxTokens temperature : ℚ)
  | current (blob : CurrentBlob)
deriving DecidableEq, Repr

/-- `saveData` (settingsManager.ts lines 293-302): the persisted blob is
the settings object itself; a cleared selection is persisted as null. -/
def saveData (s : StoredSettings) : LoadedData :=
  LoadedData.current
    { providers := some s.providers,
      selectedModelId := s.selectedModelId,
      customPrompt := some s.customPrompt,
      maxTokens := some s.maxTokens,
      temperature := some s.temperature }

/-- `loadSettings` (settingsManager.ts lines 246-291) as a function of the
pre-load in-memory settings (`self`, the constructor defaults) and the
loaded blob. The legacy branch rebuilds from `DEFAULT_PROVIDERS` injecting
the legacy key into the provider named "Gemini"; the current branch merges
field-by-field with `??` (null/absent loses, any present value wins). -/
def loadSettings (self : StoredSettings) (d : LoadedData) : StoredSettings :=
  match d with
  | LoadedData.noData => self
  | LoadedData.legacy geminiApiKey selectedModel customPrompt maxTokens temperature =>
    let providers :=
      updateFirst (fun p => p.name == "Gemini")
        (fun p => { p with apiKey := geminiApiKey, verified := false })
        DEFAULT_PROVIDERS
    { providers := providers,
      selectedModelId := some selectedModel,
      customPrompt := customPrompt,
      maxTokens := maxTokens,
      temperature := temperature }
  | LoadedData.current blob =>
    { providers := blob.providers.getD self.providers,
      selectedModelId := blob.selectedModelId.orElse (fun _ => self.selectedModelId),
      customPrompt := blob.customPrompt.getD self.customPrompt,
      maxTokens := blob.maxTokens.getD self.maxTokens,
      temperature := blob.temperature.getD self.temperature }

/-- `ProvidersFactory.createProvider` input: exactly the fields the factory
reads (`config.id`, `config.provider.{type, apiKey, url, maxTokens,
temperature}`). The TypeScript `ModelConfig` declaration carries no `id` or
generation parameters; the factory is embedded over the fields it actually
dereferences. -/
structure FactoryProviderConfig where
  type : String
  apiKey : String
  url : Option String
  maxTokens : ℚ
  temperature : ℚ
deriving DecidableEq, Repr

/-- Factory input record (see `FactoryProviderConfig`). -/
structure FactoryModelConfig where
  id : String
  provider : FactoryProviderConfig
deriving DecidableEq, Repr

/-- A constructed adapter, carrying the constructor arguments it received
(`AnthropicProvider`, `OpenAIProvider`, `GeminiProvider`). -/
inductive AIModelProvider where
  | anthropicProvider (apiKey model : String) (maxTokens temperature : ℚ)
  | openAIProvider (apiKey model : String) (maxTokens temperature : ℚ)
      (url : Option String)
  | geminiProvider (apiKey model : String) (maxTokens temperature : ℚ)
deriving DecidableEq, Repr

/-- `ProvidersFactory.createProvider` (providersFactory.ts lines 7-39):
switch on `type`, forwarding the configuration fields unchanged; the url is
forwarded only on the openai branch. -/
def createProvider (config : FactoryModelConfig) :
    Except Err AIModelProvider :=
  let type := config.provider.type
  let apiKey := config.provider.apiKey
  let model := config.id
  let maxTokens := config.provider.maxTokens
  let temperature := config.provider.temperature
  if type == "anthropic" then
    Except.ok (AIModelProvider.anthropicProvider apiKey model maxTokens temperature)
  else if type == "openai" then
    Except.ok (AIModelProvider.openAIProvider apiKey model maxTokens temperature
      config.provider.url)
  else if type == "gemini" then
    Except.ok (AIModelProvider.geminiProvider apiKey model maxTokens temperature)
  else
    Except.error Err.unsupportedProvider

/-! ### Helper lemmas -/

theorem validateFreshProvider_eq_false_of_found (providers : List StoredProvider)
    (p : StoredProvider)
    (h : (providers.find? (fun q => q.name == p.name)).isSome = true) :
    validateFreshProvider providers p = false := by
  obtain ⟨q, hq⟩ := Option.isSome_iff_exists.mp h
  unfold validateFreshProvider
  by_cases hc : (p.name == "" || p.type == "") = true
  · simp [hc]
  · simp [hc, hq]

theorem le_and_eraseIdx_of_findIdx? (q : α → Bool) :
    ∀ (l : List α) (n i : ℕ), l.findIdx? q n = some i →
      n ≤ i ∧ l.eraseIdx (i - n) = l.eraseP q := by
  intro l
  induction l with
  | nil => intro n i h; simp [List.findIdx?_nil] at h
  | cons x xs ih =>
    intro n i h
    rw [List.findIdx?_cons] at h
    by_cases hx : q x = true
    · rw [if_pos hx] at h
      have hi : n = i := by exact Option.some.inj h
      subst hi
      constructor
      · exact Nat.le_refl n
      · simp [List.eraseP_cons, hx]
    · rw [if_neg hx] at h
      obtain ⟨h1, h2⟩ := ih (n + 1) i h
      constructor
      · exact Nat.le_of_succ_le h1
      · have hstep : i - n = (i - (n + 1)) + 1 := by omega
        rw [hstep, List.eraseIdx_cons_succ, h2]
        simp [List.eraseP_cons, hx]

theorem eraseIdx_findIdx?_eq_eraseP (q : α → Bool) (l : List α) (i : ℕ)
    (h : l.findIdx? q = some i) : l.eraseIdx i = l.eraseP q := by
  have h2 := (le_and_eraseIdx_of_findIdx? q l 0 i h).2
  simpa using h2

theorem updateFirst_congr_of_find? (pr : α → Bool) (f g : α → α) (a : α) :
    ∀ (l : List α), l.find? pr = some a → f a = g a →
      updateFirst pr f l = updateFirst pr g l := by
  intro l
  induction l with
  | nil => intro h; simp [List.find?] at h
  | cons x xs ih =>
    intro h hfg
    by_cases hx : pr x = true
    · rw [List.find?_cons_of_pos xs hx] at h
      have hxa : x = a := Option.some.inj h
      subst hxa
      simp [updateFirst, hx, hfg]
    · rw [List.find?_cons_of_neg xs hx] at h
      simp [updateFirst, hx, ih h hfg]

theorem filter_map_providerView_eq_nil (n : String) :
    ∀ (l : List StoredProvider), (∀ p ∈ l, p.name ≠ n) →
      (l.map providerView).filter (fun v => v.name == n) = [] := by
  intro l
  induction l with
  | nil => intro _; rfl
  | cons x xs ih =>
    intro h
    have hx : (providerView x).name ≠ n := h x (List.mem_cons_self x xs)
    have hx2 : ((providerView x).name == n) = false := beq_eq_false_iff_ne.mpr hx
    simp [List.filter_cons, hx2]
    intro p hp
    exact h p (List.mem_cons_of_mem x hp)

theorem find?_updateFirst_saveKey (n k : String) :
    ∀ (l : List StoredProvider),
      (l.find? (fun p => p.name == n)).isSome = true →
      ((updateFirst (fun p => p.name == n)
          (fun p => { p with apiKey := k, verified := false }) l).find?
        (fun p => p.name == n)).map (fun p => (p.apiKey, p.verified))
        = some (k, false) := by
  intro l
  induction l with
  | nil => intro h; simp [List.find?] at h
  | cons x xs ih =>
    intro h
    by_cases hx : (x.name == n) = true
    · simp only [updateFirst, hx, if_true]
      rw [List.find?_cons_of_pos _ (by simpa using hx)]
      rfl
    · simp only [updateFirst]
      rw [if_neg hx]
      rw [List.find?_cons_of_neg (p := fun q => q.name == n) (a := x) _ hx]
      rw [List.find?_cons_of_neg (p := fun q => q.name == n) (a := x) _ hx] at h
      exact ih h

/-! ### Claim theorems -/

/-- C10: the read operations getSelectedModel, getProviders and getModels
never modify the registry state: embedded as state transformers mirroring
the method bodies (which contain no write to the settings), the state
component they return equals the input state for every state; the value
components are denormalized views built by convertToModelConfig /
providerView, not the stored representation itself. -/
theorem getters_preserve_state (s : StoredSettings) :
    (getSelectedModel s).1 = s ∧ (getProviders s).1 = s ∧ (getModels s).1 = s :=
  ⟨rfl, rfl, rfl⟩

/-- C4: on the default registry, updateModel with a model name that does not
occur under the provider ("brand-new" under "OpenAI") is a pure selection
change: it sets the global selection and leaves every provider's model list
structurally unchanged. But with a name that does occur ("gpt-4" under
"OpenAI") the call does not replace the display name as the claim states: it
fails with a validation error, because the freshly built stored model always
collides with the existing entry in validateModel's uniqueness check. -/
theorem updateModel_selection_change_and_existing_model_bug :
    updateModel defaultSettings "brand-new" "My display" "OpenAI"
        = Except.ok { defaultSettings with selectedModelId := some "brand-new" }
    ∧ updateModel defaultSettings "gpt-4" "My display" "OpenAI"
        = Except.error Err.validation :=
  ⟨rfl, rfl⟩

/-- C1: updateProvider on any provider name that is present in the registry
does not behave as the claim states: instead of replacing the provider's
fields while keeping its model list, it always fails with a validation
error, because the freshly rebuilt provider record always collides with the
stored entry of the same name in validateProvider's uniqueness check. -/
theorem updateProvider_existing_always_validation_error
    (s : StoredSettings) (cfg : ProviderConfig)
    (h : (s.providers.find? (fun p => p.name == cfg.name)).isSome = true) :
    updateProvider s cfg = Except.error Err.validation := by
  obtain ⟨stored, hst⟩ := Option.isSome_iff_exists.mp h
  have hv : validateFreshProvider s.providers
      { name := cfg.name, type := cfg.type, apiKey := cfg.apiKey,
        url := cfg.url, verified := cfg.verified,
        models := stored.models } = false := by
    apply validateFreshProvider_eq_false_of_found
    simpa using h
  simp [updateProvider, hst, hv]

/-- C1 witness: updating the default registry's own "Gemini" provider
fails with the validation error. -/
theorem updateProvider_existing_always_validation_error_witness :
    updateProvider defaultSettings
        { name := "Gemini", type := "gemini", apiKey := "newkey", url := none,
          verified := false, models := [] }
      = Except.error Err.validation :=
  updateProvider_existing_always_validation_error defaultSettings
    { name := "Gemini", type := "gemini", apiKey := "newkey", url := none,
      verified := false, models := [] } (by decide)

/-- C7: deleteProvider on a provider whose model list is non-empty always
fails with the conflict error; the check precedes every mutation in the
source, so the registry state is untouched by the failed call. -/
theorem deleteProvider_nonempty_models_conflict
    (s : StoredSettings) (pn : String) (p : StoredProvider)
    (hfind : s.providers.find? (fun q => q.name == pn) = some p)
    (hne : p.models ≠ []) :
    deleteProvider s pn = Except.error Err.conflict := by
  have hlen : 0 < p.models.length := List.length_pos.mpr hne
  simp [deleteProvider, hfind, hlen]

/-- C7 witness: the default "Gemini" provider owns models, so deleting it
fails with the conflict error. -/
theorem deleteProvider_nonempty_models_conflict_witness :
    deleteProvider defaultSettings "Gemini" = Except.error Err.conflict :=
  deleteProvider_nonempty_models_conflict defaultSettings "Gemini"
    { name := "Gemini", type := "gemini", apiKey := "", url := none,
      verified := false,
      models := [ { id := "gemini-1.5-pro", name := "gemini-1.5-pro" },
                  { id := "gemini-1.5-flash", name := "gemini-1.5-flash" } ] }
    (by decide) (by decide)

/-- C2 counterexample: saving a registry state whose selection is null and
loading the saved blob does not reproduce the state: the nullish-coalescing
merge in loadSettings replaces the null selection with the constructor
default "gemini-1.5-pro". -/
theorem roundTrip_null_selection_counterexample :
    loadSettings defaultSettings
        (saveData { defaultSettings with selectedModelId := none })
      ≠ { defaultSettings with selectedModelId := none } := by
  intro h
  have h2 := congrArg StoredSettings.selectedModelId h
  simp [loadSettings, saveData, defaultSettings, Option.orElse] at h2

/-- C2 (amended): saving a registry state and loading the saved blob yields
the identical state (providers, models, selection, prompt, maxTokens,
temperature) whenever the saved selection is non-null; a null selection is
replaced by the in-memory default on load. -/
theorem roundTrip_preserves_state_of_nonnull_selection (s : StoredSettings)
    (h : s.selectedModelId ≠ none) :
    loadSettings defaultSettings (saveData s) = s := by
  obtain ⟨providers, sel, prompt, mt, t⟩ := s
  cases sel with
  | none => exact absurd rfl h
  | some v => simp [loadSettings, saveData, Option.orElse]

/-- C2 witness: the default registry state itself round-trips. -/
theorem roundTrip_preserves_state_witness :
    defaultSettings.selectedModelId ≠ none
    ∧ loadSettings defaultSettings (saveData defaultSettings) = defaultSettings :=
  ⟨by decide,
   roundTrip_preserves_state_of_nonnull_selection defaultSettings (by decide)⟩

/-- C9: loading the legacy blob {geminiApiKey:"X", selectedModel:"m",
customPrompt:"p", maxTokens:10, temperature:0.5} produces a registry whose
default Gemini-type provider carries apiKey "X" and verified false, and
whose selection, prompt, maxTokens and temperature equal the legacy values
verbatim; loading the re-persisted migrated blob changes nothing. -/
theorem legacy_migration_and_idempotence :
    ((loadSettings defaultSettings
        (LoadedData.legacy "X" "m" "p" 10 0.5)).providers.find?
        (fun p => p.name == "Gemini")).map (fun p => (p.type, p.apiKey, p.verified))
      = some ("gemini", "X", false)
    ∧ (loadSettings defaultSettings
        (LoadedData.legacy "X" "m" "p" 10 0.5)).selectedModelId = some "m"
    ∧ (loadSettings defaultSettings
        (LoadedData.legacy "X" "m" "p" 10 0.5)).customPrompt = "p"
    ∧ (loadSettings defaultSettings
        (LoadedData.legacy "X" "m" "p" 10 0.5)).maxTokens = 10
    ∧ (loadSettings defaultSettings
        (LoadedData.legacy "X" "m" "p" 10 0.5)).temperature = 0.5
    ∧ loadSettings defaultSettings
        (saveData (loadSettings defaultSettings
          (LoadedData.legacy "X" "m" "p" 10 0.5)))
      = loadSettings defaultSettings (LoadedData.legacy "X" "m" "p" 10 0.5) :=
  ⟨rfl, rfl, rfl, rfl, rfl, rfl⟩

/-- C3: createProvider fails with the unsupported-provider error for every
provider type outside the three known ones, and for each known type it
constructs the matching adapter forwarding apiKey, model identifier,
maxTokens and temperature unchanged, with the custom url forwarded on the
openai branch only. -/
theorem createProvider_dispatch_and_forwarding (cfg : FactoryModelConfig) :
    (cfg.provider.type ≠ "anthropic" → cfg.provider.type ≠ "openai" →
        cfg.provider.type ≠ "gemini" →
        createProvider cfg = Except.error Err.unsupportedProvider)
    ∧ (cfg.provider.type = "anthropic" →
        createProvider cfg = Except.ok (AIModelProvider.anthropicProvider
          cfg.provider.apiKey cfg.id cfg.provider.maxTokens
          cfg.provider.temperature))
    ∧ (cfg.provider.type = "openai" →
        createProvider cfg = Except.ok (AIModelProvider.openAIProvider
          cfg.provider.apiKey cfg.id cfg.provider.maxTokens
          cfg.provider.temperature cfg.provider.url))
    ∧ (cfg.provider.type = "gemini" →
        createProvider cfg = Except.ok (AIModelProvider.geminiProvider
          cfg.provider.apiKey cfg.id cfg.provider.maxTokens
          cfg.provider.temperature)) := by
  refine ⟨?_, ?_, ?_, ?_⟩
  · intro h1 h2 h3
    have e1 : (cfg.provider.type == "anthropic") = false :=
      beq_eq_false_iff_ne.mpr h1
    have e2 : (cfg.provider.type == "openai") = false :=
      beq_eq_false_iff_ne.mpr h2
    have e3 : (cfg.provider.type == "gemini") = false :=
      beq_eq_false_iff_ne.mpr h3
    simp [createProvider, e1, e2, e3]
  · intro h
    simp [createProvider, h]
  · intro h
    simp [createProvider, h]
  · intro h
    simp [createProvider, h]

/-- C3 witness: a config with type "mistral" is rejected; one with type
"openai" yields the openai adapter with all fields forwarded. -/
theorem createProvider_dispatch_and_forwarding_witness :
    createProvider
        ⟨"mdl", ⟨"mistral", "sk", none, 5, 1⟩⟩
      = Except.error Err.unsupportedProvider
    ∧ createProvider
        ⟨"gpt-4", ⟨"openai", "sk", some "https://example.com/v1", 7, 2⟩⟩
      = Except.ok (AIModelProvider.openAIProvider "sk" "gpt-4" 7 2
          (some "https://example.com/v1")) :=
  ⟨(createProvider_dispatch_and_forwarding
      ⟨"mdl", ⟨"mistral", "sk", none, 5, 1⟩⟩).1
      (by decide) (by decide) (by decide),
   ((createProvider_dispatch_and_forwarding
      ⟨"gpt-4", ⟨"openai", "sk", some "https://example.com/v1", 7, 2⟩⟩).2).2.1
     rfl⟩

/-- C5: addProvider fails with the validation error when name or type is
missing (empty); for a name not already in the registry it succeeds and
getProviders then returns exactly one provider with that name, whose model
list is empty regardless of any models field supplied in the input. -/
theorem addProvider_validation_and_unique_empty_models
    (s : StoredSettings) (cfg : ProviderConfig) :
    ((cfg.name = "" ∨ cfg.type = "") →
        addProvider s cfg = Except.error Err.validation)
    ∧ (cfg.name ≠ "" → cfg.type ≠ "" →
        (∀ p ∈ s.providers, p.name ≠ cfg.name) →
        (addProvider s cfg).toOption.map
            (fun s2 => (((getProviders s2).2).filter
              (fun v => v.name == cfg.name)).map (fun v => v.models))
          = some [[]]) := by
  constructor
  · intro h
    have hc : (cfg.name == "" || cfg.type == "") = true := by
      rcases h with h | h <;> simp [h]
    simp [addProvider, validateFreshProvider, hc]
  · intro h1 h2 h3
    have hc : (cfg.name == "" || cfg.type == "") = false := by
      simp [beq_eq_false_iff_ne.mpr h1, beq_eq_false_iff_ne.mpr h2]
    have hf : s.providers.find? (fun q => q.name == cfg.name) = none :=
      List.find?_eq_none.mpr (fun p hp => by simpa using h3 p hp)
    have hv : validateFreshProvider s.providers
        { name := cfg.name, type := cfg.type, apiKey := cfg.apiKey,
          url := cfg.url, verified := cfg.verified, models := [] } = true := by
      simp only [validateFreshProvider]
      rw [if_neg (by simp [hc])]
      rw [hf]
    simp only [addProvider, hv, if_true, Except.toOption, Option.map_some']
    simp only [getProviders, List.map_append, List.filter_append]
    rw [filter_map_providerView_eq_nil cfg.name s.providers h3]
    simp [providerView]

/-- C5 witness: adding a fresh provider named "Custom" to the default
registry, with a non-empty models field in the input, yields exactly one
"Custom" entry whose model list is empty. -/
theorem addProvider_validation_and_unique_empty_models_witness :
    (addProvider defaultSettings
        ⟨"Custom", "openai", "sk", some "https://example.com/v1", false,
          [⟨"m1", "M1", ⟨"Custom", "openai", "sk", none, false⟩⟩]⟩).toOption.map
        (fun s2 => (((getProviders s2).2).filter
          (fun v => v.name == "Custom")).map (fun v => v.models))
      = some [[]] :=
  (addProvider_validation_and_unique_empty_models defaultSettings
      ⟨"Custom", "openai", "sk", some "https://example.com/v1", false,
        [⟨"m1", "M1", ⟨"Custom", "openai", "sk", none, false⟩⟩]⟩).2
    (by decide) (by decide) (by decide)

/-- C6: for a provider P present in the registry and a model name occurring
in P's list, deleteModel succeeds; the selection becomes null exactly when
it named the deleted model and is untouched otherwise, and the resulting
provider list differs from the original only in that the first model with
that name is erased from P's list. -/
theorem deleteModel_selection_and_single_removal
    (s : StoredSettings) (pn mn : String) (p : StoredProvider)
    (hp : s.providers.find? (fun q => q.name == pn) = some p)
    (hm : (p.models.findIdx? (fun m => m.id == mn)).isSome = true) :
    (deleteModel s pn mn).toOption.map (fun s2 => s2.selectedModelId)
        = some (if s.selectedModelId == some mn then none
                else s.selectedModelId)
    ∧ (deleteModel s pn mn).toOption.map (fun s2 => s2.providers)
        = some (updateFirst (fun q => q.name == pn)
            (fun q => { q with
              models := q.models.eraseP (fun m => m.id == mn) })
            s.providers) := by
  obtain ⟨i, hi⟩ := Option.isSome_iff_exists.mp hm
  have herase : p.models.eraseIdx i = p.models.eraseP (fun m => m.id == mn) :=
    eraseIdx_findIdx?_eq_eraseP _ _ _ hi
  have hcong := updateFirst_congr_of_find? (fun q => q.name == pn)
      (fun q => { q with models := q.models.eraseIdx i })
      (fun q => { q with models := q.models.eraseP (fun m => m.id == mn) })
      p s.providers hp (by simp [herase])
  constructor
  · simp [deleteModel, hp, hi, Except.toOption]
  · simp only [deleteModel, hp, hi, Except.toOption, Option.map_some']
    rw [hcong]

/-- C6 witness: deleting "gpt-4" from the default registry's "OpenAI"
provider leaves the selection (which names a different model) unchanged. -/
theorem deleteModel_selection_and_single_removal_witness :
    (deleteModel defaultSettings "OpenAI" "gpt-4").toOption.map
        (fun s2 => s2.selectedModelId)
      = some (if defaultSettings.selectedModelId == some "gpt-4" then none
              else defaultSettings.selectedModelId) :=
  (deleteModel_selection_and_single_removal defaultSettings "OpenAI" "gpt-4"
    ⟨"OpenAI", "openai", "", none, false,
      [⟨"gpt-3.5-turbo", "GPT-3.5 Turbo"⟩, ⟨"gpt-4", "GPT-4"⟩,
       ⟨"gpt-4-turbo", "GPT-4 Turbo"⟩]⟩
    (by decide) (by decide)).1

/-- C8 counterexample: addProvider writes the caller-supplied apiKey but
stores the caller-supplied verified flag verbatim: adding a provider with
verified=true leaves it verified immediately after the apiKey write,
contradicting the claim that every apiKey-writing operation forces
verified=false. -/
theorem addProvider_keeps_caller_verified_counterexample :
    (addProvider defaultSettings
        ⟨"X", "openai", "sk", none, true, []⟩).toOption.map
        (fun s2 => (s2.providers.find? (fun p => p.name == "X")).map
          (fun p => (p.apiKey, p.verified)))
      = some (some ("sk", true)) := rfl

/-- C8 (amended): saveProviderKey on an unknown provider name fails with the
not-found error; on a known provider it overwrites the apiKey and forces
verified=false even if it was previously true. addProvider, by contrast,
stores the caller-supplied verified flag verbatim (and updateProvider never
completes a write on an existing provider, see C1). -/
theorem saveProviderKey_forces_unverified
    (s : StoredSettings) (n k : String) (cfg : ProviderConfig) :
    (s.providers.find? (fun p => p.name == n) = none →
        saveProviderKey s n k = Except.error Err.notFound)
    ∧ ((s.providers.find? (fun p => p.name == n)).isSome = true →
        (saveProviderKey s n k).toOption.bind
            (fun s2 => (s2.providers.find? (fun p => p.name == n)).map
              (fun p => (p.apiKey, p.verified))) = some (k, false))
    ∧ (∀ s2, addProvider s cfg = Except.ok s2 →
        s2.providers.map (fun p => p.verified)
          = s.providers.map (fun p => p.verified) ++ [cfg.verified]) := by
  refine ⟨?_, ?_, ?_⟩
  · intro h
    simp [saveProviderKey, h]
  · intro h
    obtain ⟨q, hq⟩ := Option.isSome_iff_exists.mp h
    simp only [saveProviderKey, hq, Except.toOption, Option.bind_some]
    exact find?_updateFirst_saveKey n k s.providers h
  · intro s2 h
    by_cases hv : validateFreshProvider s.providers
        { name := cfg.name, type := cfg.type, apiKey := cfg.apiKey,
          url := cfg.url, verified := cfg.verified, models := [] } = true
    · simp only [addProvider, hv, if_true, Except.ok.injEq] at h
      subst h
      simp
    · simp [addProvider, hv] at h

/-- C8 witness: writing a key for the default "Gemini" provider (whose
verified flag we cannot even rely on) yields apiKey "kk" and verified
false. -/
theorem saveProviderKey_forces_unverified_witness :
    (saveProviderKey defaultSettings "Gemini" "kk").toOption.bind
        (fun s2 => (s2.providers.find? (fun p => p.name == "Gemini")).map
          (fun p => (p.apiKey, p.verified))) = some ("kk", false) :=
  ((saveProviderKey_forces_unverified defaultSettings "Gemini" "kk"
      ⟨"", "", "", none, false, []⟩).2).1 (by decide)
